import Mathlib

/-!
Shallow embedding of the download-gating engine of `src/botad.py`
(classes `SmartAdSystem` and `AdVerificationSystem`, the
`select_material` dispatch and the check-status handler), together with
the configuration constants of `src/config.py`.

Conventions of the embedding:
* `time.time()` values are passed explicitly as a `now : ℚ` argument
  (wall-clock floats modelled as exact rationals);
* Python dicts are modelled as functions to `Option`, with assignment
  and deletion as pointwise updates (`dictSet`, `dictDel`);
* the random component of a verification token
  (`random.randint(1000, 9999)`) is an explicit `rand : ℕ` argument;
* message strings are reproduced from the source (emoji omitted).
-/

/-- Python dict assignment `m[k] = v`, on a dict modelled as a function. -/
def dictSet {κ α : Type} [DecidableEq κ] (m : κ → Option α) (k : κ) (v : α) :
    κ → Option α :=
  fun k' => if k' = k then some v else m k'

/-- Python `del m[k]`. -/
def dictDel {κ α : Type} [DecidableEq κ] (m : κ → Option α) (k : κ) :
    κ → Option α :=
  fun k' => if k' = k then none else m k'

/-- Python `int()` truncation toward zero, on the rational time model. -/
def pyInt (q : ℚ) : ℤ := if q < 0 then ⌈q⌉ else ⌊q⌋

/-- Python truthiness of an optional float (`if session['wait_start']:`):
`None` and `0.0` are falsy, every other float is truthy. -/
def pyTruthy (x : Option ℚ) : Bool :=
  match x with
  | none => false
  | some q => decide (q ≠ 0)

namespace config

/-- src/config.py line 47: `AD_VERIFICATION_ENABLED = True`. -/
def AD_VERIFICATION_ENABLED : Bool := true

/-- src/config.py line 48: `FREE_DOWNLOADS_ALLOWED = 2`. -/
def FREE_DOWNLOADS_ALLOWED : ℕ := 2

/-- src/config.py line 49: `WAIT_TIME_SECONDS = 20`. -/
def WAIT_TIME_SECONDS : ℕ := 20

/-- src/config.py line 50: `TOKEN_DURATION_HOURS = 10`. -/
def TOKEN_DURATION_HOURS : ℕ := 10

/-- src/config.py line 51: `FREE_DOWNLOAD_RESET_HOURS = 10`. -/
def FREE_DOWNLOAD_RESET_HOURS : ℕ := 10

end config

/-- The `material_info` dict stored in a verification session
(src/botad.py lines 1763-1770); opaque to the gating engine. -/
structure MaterialInfo where
  branch : String
  semester : String
  subject : String
  material_index : ℕ
  material_title : String
  deriving DecidableEq, Repr

/-- One entry of `SmartAdSystem.user_stats` (src/botad.py lines 1061-1068).
`Inhabited` default is the all-zero record. -/
structure UserData where
  free_downloads_used : ℕ
  total_downloads : ℕ
  tokens_earned : ℕ
  last_ad_watch : Option ℚ
  free_downloads_reset_time : ℚ
  last_reset : ℚ
  deriving DecidableEq, Repr, Inhabited

/-- One entry of `SmartAdSystem.user_tokens` (src/botad.py lines 1125-1128). -/
structure TokenData where
  created_at : ℚ
  expires_at : ℚ
  deriving DecidableEq, Repr

/-- One verification session, as stored in `user_sessions` by both ad
systems (src/botad.py lines 992-999 and 1189-1196). -/
structure AdSession where
  user_id : ℕ
  material_info : MaterialInfo
  created_at : ℚ
  ad_clicked : Bool
  wait_start : Option ℚ
  completed : Bool
  deriving DecidableEq, Repr

/-- State of the `SmartAdSystem` class (src/botad.py lines 1052-1056). -/
structure SmartAdSystem where
  user_sessions : String → Option AdSession
  user_tokens : ℕ → Option TokenData
  user_stats : ℕ → Option UserData

/-- `SmartAdSystem.__init__`: all three dicts empty. -/
def SmartAdSystem.init : SmartAdSystem :=
  { user_sessions := fun _ => none
    user_tokens := fun _ => none
    user_stats := fun _ => none }

/-- The record created for a first-seen user (src/botad.py lines
1061-1068): zero counters and a reset deadline one window from now. -/
def freshUser (now : ℚ) : UserData :=
  { free_downloads_used := 0
    total_downloads := 0
    tokens_earned := 0
    last_ad_watch := none
    free_downloads_reset_time := now + (config.FREE_DOWNLOAD_RESET_HOURS : ℚ) * 3600
    last_reset := now }

/-- `SmartAdSystem.get_user_data` (src/botad.py lines 1058-1069): lazy
creation of a user record with zero counters and a fresh reset deadline. -/
def SmartAdSystem.get_user_data (now : ℚ) (user_id : ℕ) (s : SmartAdSystem) :
    UserData × SmartAdSystem :=
  match s.user_stats user_id with
  | some d => (d, s)
  | none =>
    (freshUser now, { s with user_stats := dictSet s.user_stats user_id (freshUser now) })

/-- `SmartAdSystem.reset_free_downloads_if_needed` (src/botad.py lines
1071-1084): reset the free-download counter when the deadline passed. -/
def SmartAdSystem.reset_free_downloads_if_needed (now : ℚ) (user_id : ℕ)
    (s : SmartAdSystem) : Bool × SmartAdSystem :=
  let p := SmartAdSystem.get_user_data now user_id s
  let d := p.1
  let s1 := p.2
  if d.free_downloads_reset_time ≤ now then
    let d' := { d with
      free_downloads_used := 0
      free_downloads_reset_time := now + (config.FREE_DOWNLOAD_RESET_HOURS : ℚ) * 3600
      last_reset := now }
    (true, { s1 with user_stats := dictSet s1.user_stats user_id d' })
  else
    (false, s1)

/-- `SmartAdSystem.has_valid_token` (src/botad.py lines 1096-1106): valid
iff a token exists and `now < expires_at`; an expired entry is deleted. -/
def SmartAdSystem.has_valid_token (now : ℚ) (user_id : ℕ) (s : SmartAdSystem) :
    Bool × SmartAdSystem :=
  match s.user_tokens user_id with
  | some t =>
    if now < t.expires_at then (true, s)
    else (false, { s with user_tokens := dictDel s.user_tokens user_id })
  | none => (false, s)

/-- `SmartAdSystem.use_free_download` (src/botad.py lines 1108-1120):
consume one free slot when available, returning the updated count. -/
def SmartAdSystem.use_free_download (now : ℚ) (user_id : ℕ) (s : SmartAdSystem) :
    ℕ × SmartAdSystem :=
  let p := SmartAdSystem.get_user_data now user_id s
  let d := p.1
  let s1 := p.2
  if d.free_downloads_used < config.FREE_DOWNLOADS_ALLOWED then
    let d' := { d with
      free_downloads_used := d.free_downloads_used + 1
      total_downloads := d.total_downloads + 1 }
    (d'.free_downloads_used, { s1 with user_stats := dictSet s1.user_stats user_id d' })
  else
    (d.free_downloads_used, s1)

/-- `SmartAdSystem.grant_token` (src/botad.py lines 1122-1132): overwrite
the user's token with a fresh one and bump `tokens_earned`. -/
def SmartAdSystem.grant_token (now : ℚ) (user_id : ℕ) (s : SmartAdSystem) :
    SmartAdSystem :=
  let tok : TokenData :=
    { created_at := now
      expires_at := now + (config.TOKEN_DURATION_HOURS : ℚ) * 3600 }
  let s1 := { s with user_tokens := dictSet s.user_tokens user_id tok }
  let p := SmartAdSystem.get_user_data now user_id s1
  let d := p.1
  let s2 := p.2
  let d' := { d with tokens_earned := d.tokens_earned + 1, last_ad_watch := some now }
  { s2 with user_stats := dictSet s2.user_stats user_id d' }

/-- Status tag returned by `get_user_status` (src/botad.py lines 1157, 1168, 1177). -/
inductive StatusKind where
  | token_active
  | free_downloads
  | needs_ad
  deriving DecidableEq, Repr

/-- The status record returned by `get_user_status`; the display-only
time-remaining fields of the Python dict are omitted. -/
structure UserStatus where
  status : StatusKind
  free_remaining : ℤ
  free_total : ℕ
  total_downloads : ℕ
  deriving DecidableEq, Repr

/-- `SmartAdSystem.get_user_status` (src/botad.py lines 1134-1183): runs
the quota reset check, then dispatches token-active before free-slots
before needs-ad. -/
def SmartAdSystem.get_user_status (now : ℚ) (user_id : ℕ) (s : SmartAdSystem) :
    UserStatus × SmartAdSystem :=
  let p := SmartAdSystem.get_user_data now user_id s
  let s1 := p.2
  let q := SmartAdSystem.reset_free_downloads_if_needed now user_id s1
  let s2 := q.2
  let d := (s2.user_stats user_id).getD default
  let free_remaining : ℤ := (config.FREE_DOWNLOADS_ALLOWED : ℤ) - (d.free_downloads_used : ℤ)
  let r := SmartAdSystem.has_valid_token now user_id s2
  let s3 := r.2
  if r.1 then
    ({ status := .token_active
       free_remaining := free_remaining
       free_total := config.FREE_DOWNLOADS_ALLOWED
       total_downloads := d.total_downloads }, s3)
  else if 0 < free_remaining then
    ({ status := .free_downloads
       free_remaining := free_remaining
       free_total := config.FREE_DOWNLOADS_ALLOWED
       total_downloads := d.total_downloads }, s3)
  else
    ({ status := .needs_ad
       free_remaining := 0
       free_total := config.FREE_DOWNLOADS_ALLOWED
       total_downloads := d.total_downloads }, s3)

/-- The token string `f"verify_(user_id)_(int(time.time()))_(rand)"`
built at src/botad.py line 1187, with the random component explicit. -/
def verifyTokenString (now : ℚ) (rand : ℕ) (user_id : ℕ) : String :=
  "verify_" ++ toString user_id ++ "_" ++ toString (pyInt now) ++ "_" ++ toString rand

/-- `SmartAdSystem.generate_verification_token` (src/botad.py lines
1185-1198): store a fresh, unclicked, uncompleted session. -/
def SmartAdSystem.generate_verification_token (now : ℚ) (rand : ℕ) (user_id : ℕ)
    (mi : MaterialInfo) (s : SmartAdSystem) : String × SmartAdSystem :=
  let token := verifyTokenString now rand user_id
  let sess : AdSession :=
    { user_id := user_id
      material_info := mi
      created_at := now
      ad_clicked := false
      wait_start := none
      completed := false }
  (token, { s with user_sessions := dictSet s.user_sessions token sess })

/-- `SmartAdSystem.verify_ad_click` (src/botad.py lines 1200-1207): mark
the ad clicked and (re)start the wait timer; fail on an unknown token. -/
def SmartAdSystem.verify_ad_click (now : ℚ) (token : String) (s : SmartAdSystem) :
    Bool × SmartAdSystem :=
  match s.user_sessions token with
  | some sess =>
    let sess' := { sess with ad_clicked := true, wait_start := some now }
    (true, { s with user_sessions := dictSet s.user_sessions token sess' })
  | none => (false, s)

/-- The waiting message of src/botad.py line 1234. -/
def smartWaitMessage (remaining : ℤ) : String :=
  "Please wait " ++ toString remaining ++ " more seconds with the ad page open"

/-- The completion message of src/botad.py line 1231 (emoji omitted). -/
def smartCompleteMessage : String :=
  "Verification complete! You now have " ++ toString config.TOKEN_DURATION_HOURS ++
    " hours of unlimited downloads!"

/-- `SmartAdSystem.check_verification_status` (src/botad.py lines
1209-1236): poll a session; on the first poll past the wait threshold,
mark it completed and grant the user a token. -/
def SmartAdSystem.check_verification_status (now : ℚ) (token : String)
    (s : SmartAdSystem) : (Bool × String) × SmartAdSystem :=
  match s.user_sessions token with
  | none => ((false, "Invalid token"), s)
  | some session =>
    if session.ad_clicked = false then
      ((false, "Please click the ad link first"), s)
    else if session.completed then
      ((true, "Already verified"), s)
    else if pyTruthy session.wait_start then
      let elapsed := now - session.wait_start.getD 0
      if (config.WAIT_TIME_SECONDS : ℚ) ≤ elapsed then
        let session' := { session with completed := true }
        let s1 := { s with user_sessions := dictSet s.user_sessions token session' }
        let s2 := SmartAdSystem.grant_token now session.user_id s1
        ((true, smartCompleteMessage), s2)
      else
        ((false, smartWaitMessage ((config.WAIT_TIME_SECONDS : ℤ) - pyInt elapsed)), s)
    else
      ((false, "Verification in progress"), s)

/-- `SmartAdSystem.cleanup_old_sessions` (src/botad.py lines 1238-1248):
drop sessions created more than an hour ago. -/
def SmartAdSystem.cleanup_old_sessions (now : ℚ) (s : SmartAdSystem) :
    SmartAdSystem :=
  { s with user_sessions := fun token =>
      match s.user_sessions token with
      | some sess => if 3600 < now - sess.created_at then none else some sess
      | none => none }

/-- State of the `AdVerificationSystem` class (src/botad.py lines 982-985);
`ad_clicks` is initialized and never used. -/
structure AdVerificationSystem where
  user_sessions : String → Option AdSession
  ad_clicks : ℕ → Option ℕ

/-- `AdVerificationSystem.verify_ad_click` (src/botad.py lines 1003-1009). -/
def AdVerificationSystem.verify_ad_click (now : ℚ) (token : String)
    (a : AdVerificationSystem) : Bool × AdVerificationSystem :=
  match a.user_sessions token with
  | some sess =>
    let sess' := { sess with ad_clicked := true, wait_start := some now }
    (true, { a with user_sessions := dictSet a.user_sessions token sess' })
  | none => (false, a)

/-- `AdVerificationSystem.check_verification_status` (src/botad.py lines
1011-1034): like the smart variant, but grants no token and touches no
user statistics — its only mutation is the `completed` flag. -/
def AdVerificationSystem.check_verification_status (now : ℚ) (token : String)
    (a : AdVerificationSystem) : (Bool × String) × AdVerificationSystem :=
  match a.user_sessions token with
  | none => ((false, "Invalid token"), a)
  | some session =>
    if session.ad_clicked = false then
      ((false, "Ad not clicked"), a)
    else if session.completed then
      ((true, "Already verified"), a)
    else if pyTruthy session.wait_start then
      let elapsed := now - session.wait_start.getD 0
      if (config.WAIT_TIME_SECONDS : ℚ) ≤ elapsed then
        let session' := { session with completed := true }
        ((true, "Verification complete"),
          { a with user_sessions := dictSet a.user_sessions token session' })
      else
        ((false, "Wait " ++ toString ((config.WAIT_TIME_SECONDS : ℤ) - pyInt elapsed) ++
          " more seconds"), a)
    else
      ((false, "Verification in progress"), a)

/-- The module-level mutable state relevant to the gating flow: the two
ad-system singletons of src/botad.py lines 1049 and 1251. -/
structure BotState where
  smart_ad_system : SmartAdSystem
  ad_verification : AdVerificationSystem

/-- The public check-status event handler (src/botad.py lines 1549-1591,
reached from `handle_verification` on a `check_status_` callback): it
polls `ad_verification.check_verification_status`; everything else in the
handler renders messages. -/
def handle_check_status (now : ℚ) (token : String) (g : BotState) :
    (Bool × String) × BotState :=
  let r := AdVerificationSystem.check_verification_status now token g.ad_verification
  (r.1, { g with ad_verification := r.2 })

/-- Outcome of the `select_material` dispatch: deliver directly
(`send_material_direct`), consume a free slot and offer the download
button, or create a verification session and show the ad prompt. -/
inductive GateDecision where
  | delivered
  | free_slot_used (new_count : ℕ)
  | ad_prompt (token : String)
  deriving DecidableEq, Repr

/-- `select_material` (src/botad.py lines 1594-1659) together with the
session-creating tail of `show_ad_verification` (lines 1715-1826, the
live definition, which re-reads `get_user_status` and then calls
`generate_verification_token`). `ad_enabled` mirrors
`config.AD_VERIFICATION_ENABLED`; `rand` is the token's random part.
Message rendering and catalog lookups are outside the embedding. -/
def select_material (ad_enabled : Bool) (now : ℚ) (rand : ℕ) (user_id : ℕ)
    (mi : MaterialInfo) (s : SmartAdSystem) : GateDecision × SmartAdSystem :=
  if ad_enabled = false then (.delivered, s)
  else
    let p := SmartAdSystem.get_user_status now user_id s
    let st := p.1
    let s1 := p.2
    if st.status = .free_downloads then
      let q := SmartAdSystem.use_free_download now user_id s1
      (.free_slot_used q.1, q.2)
    else if st.status = .token_active then
      (.delivered, s1)
    else
      let r2 := SmartAdSystem.get_user_status now user_id s1
      let q := SmartAdSystem.generate_verification_token now rand user_id mi r2.2
      (.ad_prompt q.1, q.2)

/-! ### Derived read-only views and dict lemmas -/

/-- Free-download count recorded for a user (0 when no record exists yet). -/
def SmartAdSystem.userUsed (user_id : ℕ) (s : SmartAdSystem) : ℕ :=
  match s.user_stats user_id with
  | some d => d.free_downloads_used
  | none => 0

/-- Lifetime download count recorded for a user (0 when no record exists yet). -/
def SmartAdSystem.userTotal (user_id : ℕ) (s : SmartAdSystem) : ℕ :=
  match s.user_stats user_id with
  | some d => d.total_downloads
  | none => 0

/-- Tokens-earned count recorded for a user (0 when no record exists yet). -/
def SmartAdSystem.userTokensEarned (user_id : ℕ) (s : SmartAdSystem) : ℕ :=
  match s.user_stats user_id with
  | some d => d.tokens_earned
  | none => 0

/-- Side-effect-free reading of token validity: a token is stored and
unexpired at `now`.  `has_valid_token` returns exactly this. -/
def SmartAdSystem.tokenValidNow (now : ℚ) (user_id : ℕ) (s : SmartAdSystem) : Bool :=
  match s.user_tokens user_id with
  | some t => decide (now < t.expires_at)
  | none => false

theorem dictSet_same {κ α : Type} [DecidableEq κ] (m : κ → Option α) (k : κ) (v : α) :
    dictSet m k v k = some v := by
  simp [dictSet]

theorem dictSet_other {κ α : Type} [DecidableEq κ] (m : κ → Option α) (k k' : κ) (v : α)
    (h : k' ≠ k) : dictSet m k v k' = m k' := by
  simp [dictSet, h]

theorem dictDel_same {κ α : Type} [DecidableEq κ] (m : κ → Option α) (k : κ) :
    dictDel m k k = none := by
  simp [dictDel]

theorem dictDel_other {κ α : Type} [DecidableEq κ] (m : κ → Option α) (k k' : κ)
    (h : k' ≠ k) : dictDel m k k' = m k' := by
  simp [dictDel, h]

/-! ### Frame lemmas for the store operations -/

theorem get_user_data_tokens (now : ℚ) (user_id : ℕ) (s : SmartAdSystem) :
    (SmartAdSystem.get_user_data now user_id s).2.user_tokens = s.user_tokens := by
  cases h : s.user_stats user_id <;> simp [SmartAdSystem.get_user_data, h]

theorem get_user_data_sessions (now : ℚ) (user_id : ℕ) (s : SmartAdSystem) :
    (SmartAdSystem.get_user_data now user_id s).2.user_sessions = s.user_sessions := by
  cases h : s.user_stats user_id <;> simp [SmartAdSystem.get_user_data, h]

theorem get_user_data_stats_self (now : ℚ) (user_id : ℕ) (s : SmartAdSystem) :
    (SmartAdSystem.get_user_data now user_id s).2.user_stats user_id =
      some (SmartAdSystem.get_user_data now user_id s).1 := by
  cases h : s.user_stats user_id <;> simp [SmartAdSystem.get_user_data, h, dictSet_same]

theorem reset_tokens (now : ℚ) (user_id : ℕ) (s : SmartAdSystem) :
    (SmartAdSystem.reset_free_downloads_if_needed now user_id s).2.user_tokens =
      s.user_tokens := by
  unfold SmartAdSystem.reset_free_downloads_if_needed
  by_cases hc : (SmartAdSystem.get_user_data now user_id s).1.free_downloads_reset_time ≤ now <;>
    simp [hc, get_user_data_tokens]

theorem reset_sessions (now : ℚ) (user_id : ℕ) (s : SmartAdSystem) :
    (SmartAdSystem.reset_free_downloads_if_needed now user_id s).2.user_sessions =
      s.user_sessions := by
  unfold SmartAdSystem.reset_free_downloads_if_needed
  by_cases hc : (SmartAdSystem.get_user_data now user_id s).1.free_downloads_reset_time ≤ now <;>
    simp [hc, get_user_data_sessions]

theorem has_valid_token_stats (now : ℚ) (user_id : ℕ) (s : SmartAdSystem) :
    (SmartAdSystem.has_valid_token now user_id s).2.user_stats = s.user_stats := by
  unfold SmartAdSystem.has_valid_token
  cases h : s.user_tokens user_id
  · rfl
  · rename_i t
    by_cases hc : now < t.expires_at <;> simp [hc]

theorem has_valid_token_sessions (now : ℚ) (user_id : ℕ) (s : SmartAdSystem) :
    (SmartAdSystem.has_valid_token now user_id s).2.user_sessions = s.user_sessions := by
  unfold SmartAdSystem.has_valid_token
  cases h : s.user_tokens user_id
  · rfl
  · rename_i t
    by_cases hc : now < t.expires_at <;> simp [hc]

theorem has_valid_token_fst (now : ℚ) (user_id : ℕ) (s : SmartAdSystem) :
    (SmartAdSystem.has_valid_token now user_id s).1 =
      SmartAdSystem.tokenValidNow now user_id s := by
  unfold SmartAdSystem.has_valid_token SmartAdSystem.tokenValidNow
  cases h : s.user_tokens user_id
  · rfl
  · rename_i t
    by_cases hc : now < t.expires_at <;> simp [hc]

theorem use_free_download_tokens (now : ℚ) (user_id : ℕ) (s : SmartAdSystem) :
    (SmartAdSystem.use_free_download now user_id s).2.user_tokens = s.user_tokens := by
  unfold SmartAdSystem.use_free_download
  by_cases hc : (SmartAdSystem.get_user_data now user_id s).1.free_downloads_used <
      config.FREE_DOWNLOADS_ALLOWED <;>
    simp [hc, get_user_data_tokens]

theorem use_free_download_sessions (now : ℚ) (user_id : ℕ) (s : SmartAdSystem) :
    (SmartAdSystem.use_free_download now user_id s).2.user_sessions = s.user_sessions := by
  unfold SmartAdSystem.use_free_download
  by_cases hc : (SmartAdSystem.get_user_data now user_id s).1.free_downloads_used <
      config.FREE_DOWNLOADS_ALLOWED <;>
    simp [hc, get_user_data_sessions]

theorem grant_token_sessions (now : ℚ) (user_id : ℕ) (s : SmartAdSystem) :
    (SmartAdSystem.grant_token now user_id s).user_sessions = s.user_sessions := by
  unfold SmartAdSystem.grant_token
  simp [get_user_data_sessions]

theorem get_user_data_of_present (now : ℚ) (user_id : ℕ) (s : SmartAdSystem)
    (d : UserData) (h : s.user_stats user_id = some d) :
    SmartAdSystem.get_user_data now user_id s = (d, s) := by
  unfold SmartAdSystem.get_user_data
  rw [h]

theorem get_user_data_of_absent (now : ℚ) (user_id : ℕ) (s : SmartAdSystem)
    (h : s.user_stats user_id = none) :
    SmartAdSystem.get_user_data now user_id s =
      (freshUser now, { s with user_stats := dictSet s.user_stats user_id (freshUser now) }) := by
  unfold SmartAdSystem.get_user_data
  rw [h]

theorem get_user_data_stats_other (now : ℚ) (user_id uid2 : ℕ) (s : SmartAdSystem)
    (h : uid2 ≠ user_id) :
    (SmartAdSystem.get_user_data now user_id s).2.user_stats uid2 = s.user_stats uid2 := by
  cases h2 : s.user_stats user_id <;>
    simp [SmartAdSystem.get_user_data, h2, dictSet_other _ _ _ _ h]

/-! ### C9 -/

/-- C9: with `AD_VERIFICATION_ENABLED` false the engine delivers the
material immediately and the gating state is untouched — no token check
side effect, no free slot consumed, no verification session created. -/
theorem select_material_disabled_delivers (now : ℚ) (rand user_id : ℕ)
    (mi : MaterialInfo) (s : SmartAdSystem) :
    select_material false now rand user_id mi s = (GateDecision.delivered, s) := rfl

/-! ### C8 -/

/-- C8: `use_free_download` increments both `free_downloads_used` and
`total_downloads` by exactly one iff the user still has a free slot;
otherwise it returns the current count and leaves the state unchanged. -/
theorem use_free_download_spec (now : ℚ) (user_id : ℕ) (s : SmartAdSystem) (d : UserData)
    (hd : (SmartAdSystem.get_user_data now user_id s).1 = d) :
    (d.free_downloads_used < config.FREE_DOWNLOADS_ALLOWED →
      (SmartAdSystem.use_free_download now user_id s).1 = d.free_downloads_used + 1 ∧
      (SmartAdSystem.use_free_download now user_id s).2.user_stats user_id =
        some { d with
          free_downloads_used := d.free_downloads_used + 1
          total_downloads := d.total_downloads + 1 } ∧
      (∀ uid2, uid2 ≠ user_id →
        (SmartAdSystem.use_free_download now user_id s).2.user_stats uid2 =
          s.user_stats uid2) ∧
      (SmartAdSystem.use_free_download now user_id s).2.user_tokens = s.user_tokens ∧
      (SmartAdSystem.use_free_download now user_id s).2.user_sessions = s.user_sessions) ∧
    (s.user_stats user_id = some d →
      ¬ d.free_downloads_used < config.FREE_DOWNLOADS_ALLOWED →
      SmartAdSystem.use_free_download now user_id s = (d.free_downloads_used, s)) := by
  constructor
  · intro hlt
    refine ⟨?_, ?_, ?_, use_free_download_tokens now user_id s,
      use_free_download_sessions now user_id s⟩
    · simp [SmartAdSystem.use_free_download, hd, hlt]
    · simp [SmartAdSystem.use_free_download, hd, hlt, dictSet_same]
    · intro uid2 hne
      simp [SmartAdSystem.use_free_download, hd, hlt, dictSet_other _ _ _ _ hne,
        get_user_data_stats_other now user_id uid2 s hne]
  · intro hp hge
    simp [SmartAdSystem.use_free_download, get_user_data_of_present now user_id s d hp, hge]

/-- Witness for C8 at a concrete input: a fresh user consumes the first slot. -/
theorem use_free_download_spec_witness :
    (SmartAdSystem.use_free_download 0 1 SmartAdSystem.init).1 =
      (SmartAdSystem.get_user_data 0 1 SmartAdSystem.init).1.free_downloads_used + 1 :=
  ((use_free_download_spec 0 1 SmartAdSystem.init
    (SmartAdSystem.get_user_data 0 1 SmartAdSystem.init).1 rfl).1 (by decide)).1

/-! ### C6 -/
/-! ### C6 -/

theorem reset_noop_of_future (now : ℚ) (user_id : ℕ) (s : SmartAdSystem) (d : UserData)
    (h : s.user_stats user_id = some d) (hf : ¬ d.free_downloads_reset_time ≤ now) :
    SmartAdSystem.reset_free_downloads_if_needed now user_id s = (false, s) := by
  simp [SmartAdSystem.reset_free_downloads_if_needed,
    get_user_data_of_present now user_id s d h, hf]

theorem reset_stats_self (now : ℚ) (user_id : ℕ) (s : SmartAdSystem) :
    (SmartAdSystem.reset_free_downloads_if_needed now user_id s).2.user_stats user_id =
      some (if (SmartAdSystem.get_user_data now user_id s).1.free_downloads_reset_time ≤ now
        then { (SmartAdSystem.get_user_data now user_id s).1 with
               free_downloads_used := 0
               free_downloads_reset_time := now + (config.FREE_DOWNLOAD_RESET_HOURS : ℚ) * 3600
               last_reset := now }
        else (SmartAdSystem.get_user_data now user_id s).1) := by
  by_cases hc : (SmartAdSystem.get_user_data now user_id s).1.free_downloads_reset_time ≤ now <;>
    simp [SmartAdSystem.reset_free_downloads_if_needed, hc, dictSet_same,
      get_user_data_stats_self]

theorem reset_window_positive (x : ℚ) :
    ¬ x + (config.FREE_DOWNLOAD_RESET_HOURS : ℚ) * 3600 ≤ x := by
  have h0 : (0:ℚ) < (config.FREE_DOWNLOAD_RESET_HOURS : ℚ) * 3600 := by
    norm_num [config.FREE_DOWNLOAD_RESET_HOURS]
  linarith

theorem reset_second_call_noop (now : ℚ) (user_id : ℕ) (s : SmartAdSystem) :
    SmartAdSystem.reset_free_downloads_if_needed now user_id
        (SmartAdSystem.reset_free_downloads_if_needed now user_id s).2 =
      (false, (SmartAdSystem.reset_free_downloads_if_needed now user_id s).2) := by
  refine reset_noop_of_future now user_id _ _ (reset_stats_self now user_id s) ?_
  by_cases hc : (SmartAdSystem.get_user_data now user_id s).1.free_downloads_reset_time ≤ now
  · rw [if_pos hc]
    exact reset_window_positive now
  · rw [if_neg hc]
    exact hc

/-- C6: `reset_free_downloads_if_needed` resets (zero counter, new
deadline one window ahead) and returns true iff `now` has reached the
user's reset deadline; if no reset is due it only performs the lazy
record creation; and a second call at the same instant returns false and
changes nothing. -/
theorem reset_if_due_spec (now : ℚ) (user_id : ℕ) (s : SmartAdSystem) (d : UserData)
    (hd : (SmartAdSystem.get_user_data now user_id s).1 = d) :
    ((SmartAdSystem.reset_free_downloads_if_needed now user_id s).1 = true ↔
        d.free_downloads_reset_time ≤ now) ∧
    (d.free_downloads_reset_time ≤ now →
      (SmartAdSystem.reset_free_downloads_if_needed now user_id s).2.user_stats user_id =
        some { d with
          free_downloads_used := 0
          free_downloads_reset_time := now + (config.FREE_DOWNLOAD_RESET_HOURS : ℚ) * 3600
          last_reset := now }) ∧
    (¬ d.free_downloads_reset_time ≤ now →
      (SmartAdSystem.reset_free_downloads_if_needed now user_id s).2 =
        (SmartAdSystem.get_user_data now user_id s).2) ∧
    SmartAdSystem.reset_free_downloads_if_needed now user_id
        (SmartAdSystem.reset_free_downloads_if_needed now user_id s).2 =
      (false, (SmartAdSystem.reset_free_downloads_if_needed now user_id s).2) := by
  refine ⟨?_, ?_, ?_, reset_second_call_noop now user_id s⟩
  · by_cases hc : d.free_downloads_reset_time ≤ now <;>
      simp [SmartAdSystem.reset_free_downloads_if_needed, hd, hc]
  · intro hc
    simp [SmartAdSystem.reset_free_downloads_if_needed, hd, hc, dictSet_same]
  · intro hn
    simp [SmartAdSystem.reset_free_downloads_if_needed, hd, hn]

/-- Witness for C6 at a concrete input (fresh user, time 0): the full
specification instantiated, with the lazy-created record. -/
theorem reset_if_due_spec_witness :
    ((SmartAdSystem.reset_free_downloads_if_needed 0 1 SmartAdSystem.init).1 = true ↔
        (SmartAdSystem.get_user_data 0 1 SmartAdSystem.init).1.free_downloads_reset_time ≤ 0) ∧
    ((SmartAdSystem.get_user_data 0 1 SmartAdSystem.init).1.free_downloads_reset_time ≤ 0 →
      (SmartAdSystem.reset_free_downloads_if_needed 0 1 SmartAdSystem.init).2.user_stats 1 =
        some { (SmartAdSystem.get_user_data 0 1 SmartAdSystem.init).1 with
          free_downloads_used := 0
          free_downloads_reset_time := 0 + (config.FREE_DOWNLOAD_RESET_HOURS : ℚ) * 3600
          last_reset := 0 }) ∧
    (¬ (SmartAdSystem.get_user_data 0 1 SmartAdSystem.init).1.free_downloads_reset_time ≤ 0 →
      (SmartAdSystem.reset_free_downloads_if_needed 0 1 SmartAdSystem.init).2 =
        (SmartAdSystem.get_user_data 0 1 SmartAdSystem.init).2) ∧
    SmartAdSystem.reset_free_downloads_if_needed 0 1
        (SmartAdSystem.reset_free_downloads_if_needed 0 1 SmartAdSystem.init).2 =
      (false, (SmartAdSystem.reset_free_downloads_if_needed 0 1 SmartAdSystem.init).2) :=
  reset_if_due_spec 0 1 SmartAdSystem.init
    (SmartAdSystem.get_user_data 0 1 SmartAdSystem.init).1 rfl

/-! ### C7 -/

theorem grant_token_tokens_self (T : ℚ) (user_id : ℕ) (s : SmartAdSystem) :
    (SmartAdSystem.grant_token T user_id s).user_tokens user_id =
      some { created_at := T
             expires_at := T + (config.TOKEN_DURATION_HOURS : ℚ) * 3600 } := by
  simp [SmartAdSystem.grant_token, get_user_data_tokens, dictSet_same]

/-- C7: granting at `T` overwrites any stored token with one expiring at
`T + TOKEN_DURATION`; `has_valid_token` then answers true exactly for
query times strictly below the expiry, and a lookup at or after the
expiry evicts the entry from the token map. -/
theorem token_validity_spec (T t : ℚ) (user_id : ℕ) (s : SmartAdSystem) :
    ((SmartAdSystem.grant_token T user_id s).user_tokens user_id =
      some { created_at := T
             expires_at := T + (config.TOKEN_DURATION_HOURS : ℚ) * 3600 }) ∧
    ((SmartAdSystem.has_valid_token t user_id (SmartAdSystem.grant_token T user_id s)).1 = true ↔
      t < T + (config.TOKEN_DURATION_HOURS : ℚ) * 3600) ∧
    (T + (config.TOKEN_DURATION_HOURS : ℚ) * 3600 ≤ t →
      (SmartAdSystem.has_valid_token t user_id
          (SmartAdSystem.grant_token T user_id s)).2.user_tokens user_id = none) := by
  have h1 := grant_token_tokens_self T user_id s
  refine ⟨h1, ?_, ?_⟩
  · unfold SmartAdSystem.has_valid_token
    rw [h1]
    by_cases hc : t < T + (config.TOKEN_DURATION_HOURS : ℚ) * 3600 <;> simp [hc]
  · intro hge
    have hc : ¬ t < T + (config.TOKEN_DURATION_HOURS : ℚ) * 3600 := not_lt.mpr hge
    unfold SmartAdSystem.has_valid_token
    rw [h1]
    simp [hc, dictDel_same]

/-- Witness for C7: the full specification instantiated at a grant at
time 0 queried at time 5. -/
theorem token_validity_spec_witness :
    ((SmartAdSystem.grant_token 0 1 SmartAdSystem.init).user_tokens 1 =
      some { created_at := 0
             expires_at := 0 + (config.TOKEN_DURATION_HOURS : ℚ) * 3600 }) ∧
    ((SmartAdSystem.has_valid_token 5 1 (SmartAdSystem.grant_token 0 1 SmartAdSystem.init)).1 = true ↔
      (5:ℚ) < 0 + (config.TOKEN_DURATION_HOURS : ℚ) * 3600) ∧
    (0 + (config.TOKEN_DURATION_HOURS : ℚ) * 3600 ≤ 5 →
      (SmartAdSystem.has_valid_token 5 1
          (SmartAdSystem.grant_token 0 1 SmartAdSystem.init)).2.user_tokens 1 = none) :=
  token_validity_spec 0 5 1 SmartAdSystem.init

/-! ### C2 -/

/-- Amended C2: `verify_ad_click` fails on an unknown token and leaves
the state unchanged; on a known session every call sets `ad_clicked` and
overwrites `wait_start` with the current time (so a re-click restarts
the wait timer), touching nothing else. -/
theorem verify_ad_click_spec (now : ℚ) (token : String) (s : SmartAdSystem) :
    (s.user_sessions token = none →
      SmartAdSystem.verify_ad_click now token s = (false, s)) ∧
    (∀ sess, s.user_sessions token = some sess →
      (SmartAdSystem.verify_ad_click now token s).1 = true ∧
      (SmartAdSystem.verify_ad_click now token s).2.user_sessions token =
        some { sess with ad_clicked := true, wait_start := some now } ∧
      (∀ t2, t2 ≠ token →
        (SmartAdSystem.verify_ad_click now token s).2.user_sessions t2 =
          s.user_sessions t2) ∧
      (SmartAdSystem.verify_ad_click now token s).2.user_tokens = s.user_tokens ∧
      (SmartAdSystem.verify_ad_click now token s).2.user_stats = s.user_stats) := by
  constructor
  · intro h
    simp [SmartAdSystem.verify_ad_click, h]
  · intro sess h
    refine ⟨by simp [SmartAdSystem.verify_ad_click, h],
      by simp [SmartAdSystem.verify_ad_click, h, dictSet_same], ?_,
      by simp [SmartAdSystem.verify_ad_click, h],
      by simp [SmartAdSystem.verify_ad_click, h]⟩
    intro t2 ht2
    simp [SmartAdSystem.verify_ad_click, h, dictSet_other _ _ _ _ ht2]

/-- Concrete material reference used in the concrete test states. -/
def miEx : MaterialInfo :=
  { branch := "CSE"
    semester := "1"
    subject := "Math"
    material_index := 0
    material_title := "Notes" }

/-- A session whose ad was already clicked at time 5. -/
def sessEx : AdSession :=
  { user_id := 7
    material_info := miEx
    created_at := 1
    ad_clicked := true
    wait_start := some 5
    completed := false }

/-- A state holding exactly the session `sessEx` under key "tok". -/
def sEx : SmartAdSystem :=
  { user_sessions := fun t => if t = "tok" then some sessEx else none
    user_tokens := fun _ => none
    user_stats := fun _ => none }

/-- C2 counterexample: the session stored under "tok" already has its
click timestamp set (to 5), yet a second `verify_ad_click` at time 9
overwrites the timestamp to 9 — the claimed idempotence fails. -/
theorem verify_ad_click_restarts_timer_cex :
    sEx.user_sessions "tok" = some sessEx ∧
    sessEx.wait_start = some 5 ∧
    (SmartAdSystem.verify_ad_click 9 "tok" sEx).1 = true ∧
    ((SmartAdSystem.verify_ad_click 9 "tok" sEx).2.user_sessions "tok").map
        AdSession.wait_start = some (some 9) ∧
    ¬ ((SmartAdSystem.verify_ad_click 9 "tok" sEx).2.user_sessions "tok").map
        AdSession.wait_start = some (some 5) := by
  decide

/-- Witness for the amended C2: an unknown token fails and changes
nothing; the known token reports success. -/
theorem verify_ad_click_spec_witness :
    SmartAdSystem.verify_ad_click 9 "zzz" sEx = (false, sEx) ∧
    (SmartAdSystem.verify_ad_click 9 "tok" sEx).1 = true :=
  ⟨(verify_ad_click_spec 9 "zzz" sEx).1 (by decide),
   ((verify_ad_click_spec 9 "tok" sEx).2 sessEx (by decide)).1⟩

/-! ### C4 -/

/-- One call into the quota/token store, tagged with the user it targets. -/
inductive StoreOp where
  | getData (user_id : ℕ)
  | resetIfNeeded (user_id : ℕ)
  | useFree (user_id : ℕ)
  | grantTok (user_id : ℕ)
  deriving Repr

/-- Apply one store operation at wall-clock time `tnow`, keeping the state. -/
def applyOp (tnow : ℚ) (op : StoreOp) (s : SmartAdSystem) : SmartAdSystem :=
  match op with
  | .getData user_id => (SmartAdSystem.get_user_data tnow user_id s).2
  | .resetIfNeeded user_id => (SmartAdSystem.reset_free_downloads_if_needed tnow user_id s).2
  | .useFree user_id => (SmartAdSystem.use_free_download tnow user_id s).2
  | .grantTok user_id => SmartAdSystem.grant_token tnow user_id s

/-- Run a sequence of timed store operations (most recent first) from the
initial empty state. -/
def runOps : List (ℚ × StoreOp) → SmartAdSystem
  | [] => SmartAdSystem.init
  | (t, op) :: rest => applyOp t op (runOps rest)

/-- The C4 invariant: every stored user record keeps `free_downloads_used`
within the allowance. -/
def quotaInvariant (s : SmartAdSystem) : Prop :=
  ∀ user_id d, s.user_stats user_id = some d →
    d.free_downloads_used ≤ config.FREE_DOWNLOADS_ALLOWED

theorem quotaInvariant_dictSet (s : SmartAdSystem) (user_id : ℕ) (d : UserData)
    (hs : quotaInvariant s) (hd : d.free_downloads_used ≤ config.FREE_DOWNLOADS_ALLOWED) :
    quotaInvariant { s with user_stats := dictSet s.user_stats user_id d } := by
  intro uid2 d2 h2
  simp only [] at h2
  by_cases he : uid2 = user_id
  · subst he
    rw [dictSet_same] at h2
    cases h2
    exact hd
  · rw [dictSet_other _ _ _ _ he] at h2
    exact hs uid2 d2 h2

theorem quotaInvariant_get_user_data (tnow : ℚ) (user_id : ℕ) (s : SmartAdSystem)
    (hs : quotaInvariant s) :
    quotaInvariant (SmartAdSystem.get_user_data tnow user_id s).2 := by
  cases h : s.user_stats user_id
  · rw [get_user_data_of_absent tnow user_id s h]
    exact quotaInvariant_dictSet s user_id _ hs (by simp [freshUser])
  · rw [get_user_data_of_present tnow user_id s _ h]
    exact hs

theorem get_user_data_fst_used_le (tnow : ℚ) (user_id : ℕ) (s : SmartAdSystem)
    (hs : quotaInvariant s) :
    (SmartAdSystem.get_user_data tnow user_id s).1.free_downloads_used ≤
      config.FREE_DOWNLOADS_ALLOWED := by
  cases h : s.user_stats user_id
  · simp [get_user_data_of_absent tnow user_id s h, freshUser]
  · rw [get_user_data_of_present tnow user_id s _ h]
    exact hs user_id _ h

theorem quotaInvariant_reset (tnow : ℚ) (user_id : ℕ) (s : SmartAdSystem)
    (hs : quotaInvariant s) :
    quotaInvariant (SmartAdSystem.reset_free_downloads_if_needed tnow user_id s).2 := by
  have hg := quotaInvariant_get_user_data tnow user_id s hs
  unfold SmartAdSystem.reset_free_downloads_if_needed
  by_cases hc : (SmartAdSystem.get_user_data tnow user_id s).1.free_downloads_reset_time ≤ tnow
  · simp only [hc, if_true]
    exact quotaInvariant_dictSet _ user_id _ hg (by simp)
  · simp only [hc, if_false]
    exact hg

theorem quotaInvariant_useFree (tnow : ℚ) (user_id : ℕ) (s : SmartAdSystem)
    (hs : quotaInvariant s) :
    quotaInvariant (SmartAdSystem.use_free_download tnow user_id s).2 := by
  have hg := quotaInvariant_get_user_data tnow user_id s hs
  unfold SmartAdSystem.use_free_download
  by_cases hc : (SmartAdSystem.get_user_data tnow user_id s).1.free_downloads_used <
      config.FREE_DOWNLOADS_ALLOWED
  · simp only [hc, if_true]
    exact quotaInvariant_dictSet _ user_id _ hg hc
  · simp only [hc, if_false]
    exact hg

theorem quotaInvariant_grant (tnow : ℚ) (user_id : ℕ) (s : SmartAdSystem)
    (hs : quotaInvariant s) :
    quotaInvariant (SmartAdSystem.grant_token tnow user_id s) := by
  have hs1 : ∀ m : ℕ → Option TokenData, quotaInvariant { s with user_tokens := m } :=
    fun _ uid2 d2 h2 => hs uid2 d2 h2
  unfold SmartAdSystem.grant_token
  exact quotaInvariant_dictSet _ user_id _
    (quotaInvariant_get_user_data tnow user_id _ (hs1 _))
    (get_user_data_fst_used_le tnow user_id _ (hs1 _))

/-- C4: starting from the empty store (records lazily created with zero
counters), `free_downloads_used ≤ FREE_DOWNLOADS_ALLOWED` holds for every
user after every sequence of store operations. -/
theorem quota_invariant_reachable (ops : List (ℚ × StoreOp)) :
    quotaInvariant (runOps ops) := by
  induction ops with
  | nil =>
    intro uid d h
    simp [runOps, SmartAdSystem.init] at h
  | cons p rest ih =>
    obtain ⟨t, op⟩ := p
    cases op with
    | getData uid => exact quotaInvariant_get_user_data t uid (runOps rest) ih
    | resetIfNeeded uid => exact quotaInvariant_reset t uid (runOps rest) ih
    | useFree uid => exact quotaInvariant_useFree t uid (runOps rest) ih
    | grantTok uid => exact quotaInvariant_grant t uid (runOps rest) ih

/-- Witness for C4: a concrete run with three consecutive free-download
attempts (one more than the allowance) still satisfies the invariant. -/
theorem quota_invariant_reachable_witness :
    quotaInvariant (runOps [(2, StoreOp.useFree 1), (1, StoreOp.useFree 1),
      (0, StoreOp.useFree 1)]) :=
  quota_invariant_reachable [(2, StoreOp.useFree 1), (1, StoreOp.useFree 1),
    (0, StoreOp.useFree 1)]

/-! ### C3 -/

theorem grant_token_tokensEarned (now : ℚ) (user_id : ℕ) (s : SmartAdSystem) :
    SmartAdSystem.userTokensEarned user_id (SmartAdSystem.grant_token now user_id s) =
      SmartAdSystem.userTokensEarned user_id s + 1 := by
  unfold SmartAdSystem.grant_token SmartAdSystem.userTokensEarned
  cases h : s.user_stats user_id <;>
    simp [SmartAdSystem.get_user_data, h, dictSet_same, freshUser]

/-- C3: when a clicked, uncompleted session is polled at or past the wait
threshold, the check reports success, marks the session completed, grants
the user a fresh token and bumps `tokens_earned` by one; polling a
session already marked completed reports success again and changes
nothing at all — no second token grant, same stored material reference. -/
theorem complete_grants_once (now : ℚ) (tok : String) (s : SmartAdSystem)
    (sess : AdSession) (h : s.user_sessions tok = some sess)
    (hclick : sess.ad_clicked = true) :
    (∀ c, sess.completed = false → sess.wait_start = some c → c ≠ 0 →
      (config.WAIT_TIME_SECONDS : ℚ) ≤ now - c →
      (SmartAdSystem.check_verification_status now tok s).1 = (true, smartCompleteMessage) ∧
      (SmartAdSystem.check_verification_status now tok s).2.user_sessions tok =
        some { sess with completed := true } ∧
      (SmartAdSystem.check_verification_status now tok s).2.user_tokens sess.user_id =
        some { created_at := now
               expires_at := now + (config.TOKEN_DURATION_HOURS : ℚ) * 3600 } ∧
      SmartAdSystem.userTokensEarned sess.user_id
          (SmartAdSystem.check_verification_status now tok s).2 =
        SmartAdSystem.userTokensEarned sess.user_id s + 1) ∧
    (sess.completed = true →
      SmartAdSystem.check_verification_status now tok s = ((true, "Already verified"), s)) := by
  constructor
  · intro c hncomp hws hcz helapsed
    refine ⟨?_, ?_, ?_, ?_⟩
    · simp [SmartAdSystem.check_verification_status, h, hclick, hncomp, hws, pyTruthy,
        hcz, helapsed]
    · simp [SmartAdSystem.check_verification_status, h, hclick, hncomp, hws, pyTruthy,
        hcz, helapsed, grant_token_sessions, dictSet_same]
    · simp [SmartAdSystem.check_verification_status, h, hclick, hncomp, hws, pyTruthy,
        hcz, helapsed, grant_token_tokens_self]
    · have h2 : (SmartAdSystem.check_verification_status now tok s).2 =
          SmartAdSystem.grant_token now sess.user_id
            { s with user_sessions := dictSet s.user_sessions tok { sess with completed := true } } := by
        simp [SmartAdSystem.check_verification_status, h, hclick, hncomp, hws, pyTruthy,
          hcz, helapsed]
      rw [h2, grant_token_tokensEarned]
      rfl
  · intro hcomp
    simp [SmartAdSystem.check_verification_status, h, hclick, hcomp]

/-- A session like `sessEx` but already marked completed. -/
def sessExDone : AdSession :=
  { sessEx with completed := true }

/-- A state holding exactly the completed session under key "tok". -/
def sExDone : SmartAdSystem :=
  { user_sessions := fun t => if t = "tok" then some sessExDone else none
    user_tokens := fun _ => none
    user_stats := fun _ => none }

/-- Witness for C3: the first poll past the threshold succeeds and grants
a token; a poll on an already-completed session changes nothing. -/
theorem complete_grants_once_witness :
    (SmartAdSystem.check_verification_status 25 "tok" sEx).1 = (true, smartCompleteMessage) ∧
    SmartAdSystem.check_verification_status 25 "tok" sExDone =
      ((true, "Already verified"), sExDone) :=
  ⟨(((complete_grants_once 25 "tok" sEx sessEx (by decide) (by decide)).1 5 (by decide)
      (by decide) (by decide) (by norm_num [config.WAIT_TIME_SECONDS])).1),
   (complete_grants_once 25 "tok" sExDone sessExDone (by decide) (by decide)).2 (by decide)⟩

/-! ### C5 -/

theorem remaining_eq_ceil (w : ℕ) (e : ℚ) (he : 0 ≤ e) :
    (w : ℤ) - pyInt e = ⌈(w : ℚ) - e⌉ := by
  rw [pyInt, if_neg (not_lt.mpr he)]
  rw [show (w : ℚ) - e = -e + ((w : ℤ) : ℚ) by push_cast; ring]
  rw [Int.ceil_add_int, Int.ceil_neg]
  ring

/-- C5: a clicked, uncompleted session with click timestamp `c` polled at
any `t` in the window `[c, c + WAIT_TIME_SECONDS)` reports Waiting with
the ceiling of the remaining seconds and leaves the state untouched; a
poll at `t ≥ c + WAIT_TIME_SECONDS` reports Ready and marks the session
completed, after which every poll (at any time) still reports Ready. -/
theorem poll_window_spec (s : SmartAdSystem) (tok : String) (sess : AdSession)
    (c t t2 : ℚ) (h : s.user_sessions tok = some sess)
    (hclick : sess.ad_clicked = true) (hncomp : sess.completed = false)
    (hws : sess.wait_start = some c) (hc0 : 0 < c) :
    (c ≤ t → t - c < (config.WAIT_TIME_SECONDS : ℚ) →
      SmartAdSystem.check_verification_status t tok s =
        ((false, smartWaitMessage ⌈c + (config.WAIT_TIME_SECONDS : ℚ) - t⌉), s)) ∧
    ((config.WAIT_TIME_SECONDS : ℚ) ≤ t - c →
      (SmartAdSystem.check_verification_status t tok s).1.1 = true ∧
      (SmartAdSystem.check_verification_status t tok s).2.user_sessions tok =
        some { sess with completed := true } ∧
      (SmartAdSystem.check_verification_status t2 tok
          (SmartAdSystem.check_verification_status t tok s).2).1.1 = true) := by
  have hcz : c ≠ 0 := ne_of_gt hc0
  constructor
  · intro hct hlt
    have hnle : ¬ (config.WAIT_TIME_SECONDS : ℚ) ≤ t - c := not_le.mpr hlt
    have hrem : (config.WAIT_TIME_SECONDS : ℤ) - pyInt (t - c) =
        ⌈c + (config.WAIT_TIME_SECONDS : ℚ) - t⌉ := by
      rw [remaining_eq_ceil config.WAIT_TIME_SECONDS (t - c) (by linarith)]
      congr 1
      ring
    simp [SmartAdSystem.check_verification_status, h, hclick, hncomp, hws, pyTruthy,
      hcz, hnle, hrem]
  · intro hge
    have hsess' : (SmartAdSystem.check_verification_status t tok s).2.user_sessions tok =
        some { sess with completed := true } := by
      simp [SmartAdSystem.check_verification_status, h, hclick, hncomp, hws, pyTruthy,
        hcz, hge, grant_token_sessions, dictSet_same]
    refine ⟨?_, hsess', ?_⟩
    · simp [SmartAdSystem.check_verification_status, h, hclick, hncomp, hws, pyTruthy,
        hcz, hge]
    · generalize hS : (SmartAdSystem.check_verification_status t tok s).2 = S at hsess'
      simp [SmartAdSystem.check_verification_status, hsess', hclick]

/-- Witness for C5: with the click at time 5 and a 20-second wait, a poll
at time 10 waits with 15 seconds remaining, a poll at time 30 is ready,
and re-polling at time 31 stays ready. -/
theorem poll_window_spec_witness :
    (5 ≤ (10:ℚ) → (10:ℚ) - 5 < (config.WAIT_TIME_SECONDS : ℚ) →
      SmartAdSystem.check_verification_status 10 "tok" sEx =
        ((false, smartWaitMessage ⌈5 + (config.WAIT_TIME_SECONDS : ℚ) - 10⌉), sEx)) ∧
    ((config.WAIT_TIME_SECONDS : ℚ) ≤ (30:ℚ) - 5 →
      (SmartAdSystem.check_verification_status 30 "tok" sEx).1.1 = true ∧
      (SmartAdSystem.check_verification_status 30 "tok" sEx).2.user_sessions "tok" =
        some { sessEx with completed := true } ∧
      (SmartAdSystem.check_verification_status 31 "tok"
          (SmartAdSystem.check_verification_status 30 "tok" sEx).2).1.1 = true) :=
  ⟨(poll_window_spec sEx "tok" sessEx 5 10 31 (by decide) (by decide) (by decide)
      (by decide) (by decide)).1,
   (poll_window_spec sEx "tok" sessEx 5 30 31 (by decide) (by decide) (by decide)
      (by decide) (by decide)).2⟩

/-! ### C10 -/

theorem adver_check_cases (now : ℚ) (tok : String) (a : AdVerificationSystem) :
    (AdVerificationSystem.check_verification_status now tok a).2 = a ∨
    (∃ sess, a.user_sessions tok = some sess ∧ sess.ad_clicked = true ∧
      sess.completed = false ∧ pyTruthy sess.wait_start = true ∧
      (config.WAIT_TIME_SECONDS : ℚ) ≤ now - sess.wait_start.getD 0 ∧
      (AdVerificationSystem.check_verification_status now tok a).2 =
        { a with user_sessions := dictSet a.user_sessions tok { sess with completed := true } }) := by
  cases hsess : a.user_sessions tok
  case none =>
    left
    simp [AdVerificationSystem.check_verification_status, hsess]
  case some sess =>
    by_cases hclick : sess.ad_clicked = false
    · left
      simp [AdVerificationSystem.check_verification_status, hsess, hclick]
    · by_cases hcomp : sess.completed = true
      · left
        simp [AdVerificationSystem.check_verification_status, hsess, hclick, hcomp]
      · by_cases htr : pyTruthy sess.wait_start = true
        · by_cases hth : (config.WAIT_TIME_SECONDS : ℚ) ≤ now - sess.wait_start.getD 0
          · right
            refine ⟨sess, rfl, by simpa using hclick, by simpa using hcomp, htr, hth, ?_⟩
            simp [AdVerificationSystem.check_verification_status, hsess, hclick, hcomp,
              htr, hth]
          · left
            simp [AdVerificationSystem.check_verification_status, hsess, hclick, hcomp,
              htr, hth]
        · left
          simp [AdVerificationSystem.check_verification_status, hsess, hclick, hcomp, htr]

/-- C10: the public check-status handler (which polls
`AdVerificationSystem.check_verification_status`) never grants a token
and never touches any user's quota counters: the smart system (holding
`user_tokens` and `user_stats`) is untouched, `ad_clicks` is untouched,
sessions under other keys are untouched, and the polled session is
either left as is or — only once the wait threshold has elapsed on a
clicked, uncompleted session — marked completed. -/
theorem check_status_handler_frame (now : ℚ) (tok : String) (g : BotState) :
    (handle_check_status now tok g).2.smart_ad_system = g.smart_ad_system ∧
    (handle_check_status now tok g).2.smart_ad_system.user_tokens =
      g.smart_ad_system.user_tokens ∧
    (handle_check_status now tok g).2.smart_ad_system.user_stats =
      g.smart_ad_system.user_stats ∧
    (handle_check_status now tok g).2.ad_verification.ad_clicks =
      g.ad_verification.ad_clicks ∧
    (∀ t2, t2 ≠ tok →
      (handle_check_status now tok g).2.ad_verification.user_sessions t2 =
        g.ad_verification.user_sessions t2) ∧
    ((handle_check_status now tok g).2.ad_verification = g.ad_verification ∨
      (∃ sess, g.ad_verification.user_sessions tok = some sess ∧
        sess.ad_clicked = true ∧ sess.completed = false ∧
        (config.WAIT_TIME_SECONDS : ℚ) ≤ now - sess.wait_start.getD 0 ∧
        (handle_check_status now tok g).2.ad_verification.user_sessions tok =
          some { sess with completed := true })) := by
  have hcases := adver_check_cases now tok g.ad_verification
  have hsmart : (handle_check_status now tok g).2.smart_ad_system = g.smart_ad_system := rfl
  have hav : (handle_check_status now tok g).2.ad_verification =
      (AdVerificationSystem.check_verification_status now tok g.ad_verification).2 := rfl
  refine ⟨hsmart, by rw [hsmart], by rw [hsmart], ?_, ?_, ?_⟩
  · rw [hav]
    rcases hcases with heq | ⟨sess, _, _, _, _, _, heq⟩ <;> rw [heq]
  · intro t2 ht2
    rw [hav]
    rcases hcases with heq | ⟨sess, _, _, _, _, _, heq⟩
    · rw [heq]
    · rw [heq]
      exact dictSet_other _ _ _ _ ht2
  · rcases hcases with heq | ⟨sess, hs1, hs2, hs3, _, hs5, heq⟩
    · left
      rw [hav, heq]
    · right
      refine ⟨sess, hs1, hs2, hs3, hs5, ?_⟩
      rw [hav, heq]
      exact dictSet_same _ _ _

/-- Witness for C10 at a concrete input: polling the known waiting
session mutates neither the smart system nor `ad_clicks`. -/
theorem check_status_handler_frame_witness :
    (handle_check_status 10 "tok"
        { smart_ad_system := SmartAdSystem.init
          ad_verification := { user_sessions := sEx.user_sessions
                               ad_clicks := fun _ => none } }).2.smart_ad_system =
      SmartAdSystem.init :=
  (check_status_handler_frame 10 "tok"
    { smart_ad_system := SmartAdSystem.init
      ad_verification := { user_sessions := sEx.user_sessions
                           ad_clicks := fun _ => none } }).1

/-! ### C1 -/

theorem reset_after_get_user_data (now : ℚ) (user_id : ℕ) (s : SmartAdSystem) :
    SmartAdSystem.reset_free_downloads_if_needed now user_id
        (SmartAdSystem.get_user_data now user_id s).2 =
      SmartAdSystem.reset_free_downloads_if_needed now user_id s := by
  cases h : s.user_stats user_id
  · rw [get_user_data_of_absent now user_id s h]
    unfold SmartAdSystem.reset_free_downloads_if_needed
    rw [get_user_data_of_present now user_id _ (freshUser now) (dictSet_same _ _ _),
      get_user_data_of_absent now user_id s h]
  · rw [get_user_data_of_present now user_id s _ h]

theorem has_valid_token_of_valid (now : ℚ) (user_id : ℕ) (s : SmartAdSystem)
    (h : SmartAdSystem.tokenValidNow now user_id s = true) :
    SmartAdSystem.has_valid_token now user_id s = (true, s) := by
  unfold SmartAdSystem.tokenValidNow at h
  cases ht : s.user_tokens user_id
  · rw [ht] at h
    simp at h
  · rename_i t
    rw [ht] at h
    have hlt : now < t.expires_at := by simpa using h
    simp [SmartAdSystem.has_valid_token, ht, hlt]

theorem tokenValidNow_of_same_tokens (now : ℚ) (user_id : ℕ) (s s' : SmartAdSystem)
    (h : s'.user_tokens user_id = s.user_tokens user_id) :
    SmartAdSystem.tokenValidNow now user_id s' = SmartAdSystem.tokenValidNow now user_id s := by
  unfold SmartAdSystem.tokenValidNow
  rw [h]

theorem tokenValidNow_after_check (now : ℚ) (user_id : ℕ) (s : SmartAdSystem)
    (h : SmartAdSystem.tokenValidNow now user_id s = false) :
    SmartAdSystem.tokenValidNow now user_id
      (SmartAdSystem.has_valid_token now user_id s).2 = false := by
  unfold SmartAdSystem.tokenValidNow at h
  cases ht : s.user_tokens user_id
  · simp [SmartAdSystem.has_valid_token, ht, SmartAdSystem.tokenValidNow]
  · rename_i t
    rw [ht] at h
    have hnot : ¬ now < t.expires_at := by simpa using h
    simp [SmartAdSystem.has_valid_token, ht, hnot, SmartAdSystem.tokenValidNow, dictDel_same]

theorem userUsed_of_same_stats (user_id : ℕ) (s s' : SmartAdSystem)
    (h : s'.user_stats user_id = s.user_stats user_id) :
    SmartAdSystem.userUsed user_id s' = SmartAdSystem.userUsed user_id s := by
  unfold SmartAdSystem.userUsed
  rw [h]

theorem get_user_data_fst_used (now : ℚ) (user_id : ℕ) (s : SmartAdSystem) :
    (SmartAdSystem.get_user_data now user_id s).1.free_downloads_used =
      SmartAdSystem.userUsed user_id s := by
  unfold SmartAdSystem.userUsed
  cases h : s.user_stats user_id
  · simp [get_user_data_of_absent now user_id s h, freshUser]
  · simp [get_user_data_of_present now user_id s _ h]

theorem get_user_data_fst_total (now : ℚ) (user_id : ℕ) (s : SmartAdSystem) :
    (SmartAdSystem.get_user_data now user_id s).1.total_downloads =
      SmartAdSystem.userTotal user_id s := by
  unfold SmartAdSystem.userTotal
  cases h : s.user_stats user_id
  · simp [get_user_data_of_absent now user_id s h, freshUser]
  · simp [get_user_data_of_present now user_id s _ h]

theorem userUsed_reset_le (now : ℚ) (user_id : ℕ) (s : SmartAdSystem) :
    SmartAdSystem.userUsed user_id
        (SmartAdSystem.reset_free_downloads_if_needed now user_id s).2 ≤
      SmartAdSystem.userUsed user_id s := by
  rw [← get_user_data_fst_used now user_id s]
  unfold SmartAdSystem.userUsed
  rw [reset_stats_self now user_id s]
  by_cases hc : (SmartAdSystem.get_user_data now user_id s).1.free_downloads_reset_time ≤ now <;>
    simp [hc]

theorem userTotal_reset (now : ℚ) (user_id : ℕ) (s : SmartAdSystem) :
    SmartAdSystem.userTotal user_id
        (SmartAdSystem.reset_free_downloads_if_needed now user_id s).2 =
      SmartAdSystem.userTotal user_id s := by
  rw [← get_user_data_fst_total now user_id s]
  unfold SmartAdSystem.userTotal
  rw [reset_stats_self now user_id s]
  by_cases hc : (SmartAdSystem.get_user_data now user_id s).1.free_downloads_reset_time ≤ now <;>
    simp [hc]

theorem reset_stats_future (now : ℚ) (user_id : ℕ) (s : SmartAdSystem) :
    ∃ d', (SmartAdSystem.reset_free_downloads_if_needed now user_id s).2.user_stats user_id =
        some d' ∧ ¬ d'.free_downloads_reset_time ≤ now := by
  refine ⟨_, reset_stats_self now user_id s, ?_⟩
  by_cases hc : (SmartAdSystem.get_user_data now user_id s).1.free_downloads_reset_time ≤ now
  · rw [if_pos hc]
    exact reset_window_positive now
  · rw [if_neg hc]
    exact hc

theorem get_user_status_of_token (now : ℚ) (user_id : ℕ) (s : SmartAdSystem) (dR : UserData)
    (hdR : (SmartAdSystem.reset_free_downloads_if_needed now user_id s).2.user_stats user_id =
      some dR)
    (ht : SmartAdSystem.tokenValidNow now user_id s = true) :
    SmartAdSystem.get_user_status now user_id s =
      ({ status := StatusKind.token_active
         free_remaining := (config.FREE_DOWNLOADS_ALLOWED : ℤ) - (dR.free_downloads_used : ℤ)
         free_total := config.FREE_DOWNLOADS_ALLOWED
         total_downloads := dR.total_downloads },
       (SmartAdSystem.reset_free_downloads_if_needed now user_id s).2) := by
  have htok2 : SmartAdSystem.tokenValidNow now user_id
      (SmartAdSystem.reset_free_downloads_if_needed now user_id s).2 = true := by
    rw [tokenValidNow_of_same_tokens now user_id s _ (congrFun (reset_tokens now user_id s) user_id)]
    exact ht
  have hval := has_valid_token_of_valid now user_id _ htok2
  simp [SmartAdSystem.get_user_status, reset_after_get_user_data now user_id s, hdR, hval]

theorem get_user_status_of_free (now : ℚ) (user_id : ℕ) (s : SmartAdSystem) (dR : UserData)
    (hdR : (SmartAdSystem.reset_free_downloads_if_needed now user_id s).2.user_stats user_id =
      some dR)
    (ht : SmartAdSystem.tokenValidNow now user_id s = false)
    (hfree : dR.free_downloads_used < config.FREE_DOWNLOADS_ALLOWED) :
    SmartAdSystem.get_user_status now user_id s =
      ({ status := StatusKind.free_downloads
         free_remaining := (config.FREE_DOWNLOADS_ALLOWED : ℤ) - (dR.free_downloads_used : ℤ)
         free_total := config.FREE_DOWNLOADS_ALLOWED
         total_downloads := dR.total_downloads },
       (SmartAdSystem.has_valid_token now user_id
         (SmartAdSystem.reset_free_downloads_if_needed now user_id s).2).2) := by
  have hfst : (SmartAdSystem.has_valid_token now user_id
      (SmartAdSystem.reset_free_downloads_if_needed now user_id s).2).1 = false := by
    rw [has_valid_token_fst,
      tokenValidNow_of_same_tokens now user_id s _ (congrFun (reset_tokens now user_id s) user_id)]
    exact ht
  have hpos : (0:ℤ) < (config.FREE_DOWNLOADS_ALLOWED : ℤ) - (dR.free_downloads_used : ℤ) := by
    omega
  simp [SmartAdSystem.get_user_status, reset_after_get_user_data now user_id s, hdR, hfst, hpos]

theorem get_user_status_of_needs_ad (now : ℚ) (user_id : ℕ) (s : SmartAdSystem) (dR : UserData)
    (hdR : (SmartAdSystem.reset_free_downloads_if_needed now user_id s).2.user_stats user_id =
      some dR)
    (ht : SmartAdSystem.tokenValidNow now user_id s = false)
    (hfree : ¬ dR.free_downloads_used < config.FREE_DOWNLOADS_ALLOWED) :
    SmartAdSystem.get_user_status now user_id s =
      ({ status := StatusKind.needs_ad
         free_remaining := 0
         free_total := config.FREE_DOWNLOADS_ALLOWED
         total_downloads := dR.total_downloads },
       (SmartAdSystem.has_valid_token now user_id
         (SmartAdSystem.reset_free_downloads_if_needed now user_id s).2).2) := by
  have hfst : (SmartAdSystem.has_valid_token now user_id
      (SmartAdSystem.reset_free_downloads_if_needed now user_id s).2).1 = false := by
    rw [has_valid_token_fst,
      tokenValidNow_of_same_tokens now user_id s _ (congrFun (reset_tokens now user_id s) user_id)]
    exact ht
  have hneg : ¬ (0:ℤ) < (config.FREE_DOWNLOADS_ALLOWED : ℤ) - (dR.free_downloads_used : ℤ) := by
    omega
  simp [SmartAdSystem.get_user_status, reset_after_get_user_data now user_id s, hdR, hfst, hneg]

/-- C1: with ad verification enabled, the gating decision follows the
three-tier priority order. A user with a valid (unexpired) token gets
`delivered` immediately — no free slot is consumed (the counter can only
shrink via the quota reset), the lifetime download counter is untouched
and no verification session is created. Otherwise, after the quota reset
check, a user with a free slot left takes the free-slot path, consuming
exactly one slot. Otherwise a fresh verification session is created and
the decision is not `delivered`, with no slot consumed. -/
theorem select_material_three_tier (now : ℚ) (rand user_id : ℕ) (mi : MaterialInfo)
    (s : SmartAdSystem) :
    (SmartAdSystem.tokenValidNow now user_id s = true →
      (select_material true now rand user_id mi s).1 = GateDecision.delivered ∧
      SmartAdSystem.userUsed user_id (select_material true now rand user_id mi s).2 ≤
        SmartAdSystem.userUsed user_id s ∧
      SmartAdSystem.userTotal user_id (select_material true now rand user_id mi s).2 =
        SmartAdSystem.userTotal user_id s ∧
      (select_material true now rand user_id mi s).2.user_sessions = s.user_sessions) ∧
    (SmartAdSystem.tokenValidNow now user_id s = false →
      SmartAdSystem.userUsed user_id
          (SmartAdSystem.reset_free_downloads_if_needed now user_id s).2 <
        config.FREE_DOWNLOADS_ALLOWED →
      (select_material true now rand user_id mi s).1 =
        GateDecision.free_slot_used (SmartAdSystem.userUsed user_id
          (SmartAdSystem.reset_free_downloads_if_needed now user_id s).2 + 1) ∧
      SmartAdSystem.userUsed user_id (select_material true now rand user_id mi s).2 =
        SmartAdSystem.userUsed user_id
          (SmartAdSystem.reset_free_downloads_if_needed now user_id s).2 + 1) ∧
    (SmartAdSystem.tokenValidNow now user_id s = false →
      ¬ SmartAdSystem.userUsed user_id
          (SmartAdSystem.reset_free_downloads_if_needed now user_id s).2 <
        config.FREE_DOWNLOADS_ALLOWED →
      (select_material true now rand user_id mi s).1 =
        GateDecision.ad_prompt (verifyTokenString now rand user_id) ∧
      (select_material true now rand user_id mi s).2.user_sessions
          (verifyTokenString now rand user_id) =
        some { user_id := user_id
               material_info := mi
               created_at := now
               ad_clicked := false
               wait_start := none
               completed := false } ∧
      (select_material true now rand user_id mi s).1 ≠ GateDecision.delivered ∧
      SmartAdSystem.userUsed user_id (select_material true now rand user_id mi s).2 =
        SmartAdSystem.userUsed user_id
          (SmartAdSystem.reset_free_downloads_if_needed now user_id s).2) := by
  obtain ⟨dR, hdR⟩ : ∃ dR,
      (SmartAdSystem.reset_free_downloads_if_needed now user_id s).2.user_stats user_id =
        some dR := ⟨_, reset_stats_self now user_id s⟩
  have husedR : SmartAdSystem.userUsed user_id
      (SmartAdSystem.reset_free_downloads_if_needed now user_id s).2 =
      dR.free_downloads_used := by
    unfold SmartAdSystem.userUsed
    rw [hdR]
  refine ⟨?_, ?_, ?_⟩
  · -- tier 1: valid token
    intro ht
    have hstat := get_user_status_of_token now user_id s dR hdR ht
    have hsel : select_material true now rand user_id mi s =
        (GateDecision.delivered,
          (SmartAdSystem.reset_free_downloads_if_needed now user_id s).2) := by
      simp [select_material, hstat]
    rw [hsel]
    exact ⟨rfl, userUsed_reset_le now user_id s, userTotal_reset now user_id s,
      reset_sessions now user_id s⟩
  · -- tier 2: no token, free slot available after the reset check
    intro ht hfree
    rw [husedR] at hfree
    have hstat := get_user_status_of_free now user_id s dR hdR ht hfree
    have h3 : (SmartAdSystem.has_valid_token now user_id
        (SmartAdSystem.reset_free_downloads_if_needed now user_id s).2).2.user_stats user_id =
        some dR := by
      rw [has_valid_token_stats]
      exact hdR
    have hg3 := get_user_data_of_present now user_id _ dR h3
    have huse : SmartAdSystem.use_free_download now user_id
        (SmartAdSystem.has_valid_token now user_id
          (SmartAdSystem.reset_free_downloads_if_needed now user_id s).2).2 =
        (dR.free_downloads_used + 1,
          { (SmartAdSystem.has_valid_token now user_id
              (SmartAdSystem.reset_free_downloads_if_needed now user_id s).2).2 with
            user_stats := dictSet (SmartAdSystem.has_valid_token now user_id
                (SmartAdSystem.reset_free_downloads_if_needed now user_id s).2).2.user_stats
              user_id
              { dR with
                free_downloads_used := dR.free_downloads_used + 1
                total_downloads := dR.total_downloads + 1 } }) := by
      simp [SmartAdSystem.use_free_download, hg3, hfree]
    have hsel : select_material true now rand user_id mi s =
        (GateDecision.free_slot_used (dR.free_downloads_used + 1),
          (SmartAdSystem.use_free_download now user_id
            (SmartAdSystem.has_valid_token now user_id
              (SmartAdSystem.reset_free_downloads_if_needed now user_id s).2).2).2) := by
      simp [select_material, hstat, huse]
    rw [hsel, husedR]
    refine ⟨rfl, ?_⟩
    rw [huse]
    unfold SmartAdSystem.userUsed
    simp [dictSet_same]
  · -- tier 3: no token, no free slot
    intro ht hfree
    rw [husedR] at hfree
    have hstat := get_user_status_of_needs_ad now user_id s dR hdR ht hfree
    have h3 : (SmartAdSystem.has_valid_token now user_id
        (SmartAdSystem.reset_free_downloads_if_needed now user_id s).2).2.user_stats user_id =
        some dR := by
      rw [has_valid_token_stats]
      exact hdR
    obtain ⟨d', hd', hfut0⟩ := reset_stats_future now user_id s
    have hdd : d' = dR := Option.some.inj (hd'.symm.trans hdR)
    rw [hdd] at hfut0
    have hreset3 : SmartAdSystem.reset_free_downloads_if_needed now user_id
        (SmartAdSystem.has_valid_token now user_id
          (SmartAdSystem.reset_free_downloads_if_needed now user_id s).2).2 =
        (false, (SmartAdSystem.has_valid_token now user_id
          (SmartAdSystem.reset_free_downloads_if_needed now user_id s).2).2) :=
      reset_noop_of_future now user_id _ dR h3 hfut0
    have ht3 : SmartAdSystem.tokenValidNow now user_id
        (SmartAdSystem.has_valid_token now user_id
          (SmartAdSystem.reset_free_downloads_if_needed now user_id s).2).2 = false := by
      apply tokenValidNow_after_check
      rw [tokenValidNow_of_same_tokens now user_id s _
        (congrFun (reset_tokens now user_id s) user_id)]
      exact ht
    have hdR3 : (SmartAdSystem.reset_free_downloads_if_needed now user_id
        (SmartAdSystem.has_valid_token now user_id
          (SmartAdSystem.reset_free_downloads_if_needed now user_id s).2).2).2.user_stats
          user_id = some dR := by
      rw [hreset3]
      exact h3
    have hstat3 := get_user_status_of_needs_ad now user_id _ dR hdR3 ht3 hfree
    have hsel : select_material true now rand user_id mi s =
        (GateDecision.ad_prompt (verifyTokenString now rand user_id),
          (SmartAdSystem.generate_verification_token now rand user_id mi
            (SmartAdSystem.get_user_status now user_id
              (SmartAdSystem.has_valid_token now user_id
                (SmartAdSystem.reset_free_downloads_if_needed now user_id s).2).2).2).2) := by
      simp [select_material, hstat, SmartAdSystem.generate_verification_token]
    rw [hsel]
    refine ⟨rfl, ?_, by simp, ?_⟩
    · simp [SmartAdSystem.generate_verification_token, dictSet_same]
    · have hstats4 : (SmartAdSystem.generate_verification_token now rand user_id mi
          (SmartAdSystem.get_user_status now user_id
            (SmartAdSystem.has_valid_token now user_id
              (SmartAdSystem.reset_free_downloads_if_needed now user_id s).2).2).2).2.user_stats
            user_id =
          (SmartAdSystem.reset_free_downloads_if_needed now user_id s).2.user_stats user_id := by
        simp [SmartAdSystem.generate_verification_token, hstat3, has_valid_token_stats,
          hreset3, h3, hdR]
      exact userUsed_of_same_stats user_id _ _ hstats4

/-- Witness for C1: a fresh user at time 0 holds no token and has a free
slot after the reset check, so the free-slot tier fires. -/
theorem select_material_three_tier_witness :
    (select_material true 0 1234 1 miEx SmartAdSystem.init).1 =
      GateDecision.free_slot_used (SmartAdSystem.userUsed 1
        (SmartAdSystem.reset_free_downloads_if_needed 0 1 SmartAdSystem.init).2 + 1) ∧
    SmartAdSystem.userUsed 1 (select_material true 0 1234 1 miEx SmartAdSystem.init).2 =
      SmartAdSystem.userUsed 1
        (SmartAdSystem.reset_free_downloads_if_needed 0 1 SmartAdSystem.init).2 + 1 :=
  (select_material_three_tier 0 1234 1 miEx SmartAdSystem.init).2.1 (by decide)
    (by norm_num [SmartAdSystem.reset_free_downloads_if_needed, SmartAdSystem.get_user_data,
      SmartAdSystem.init, SmartAdSystem.userUsed, freshUser, dictSet,
      config.FREE_DOWNLOAD_RESET_HOURS, config.FREE_DOWNLOADS_ALLOWED])
